import Mathlib

/-!
Verification of the coreBOS web-service client library.

The library has two variants: a package-global one (src/corebosgowslib.go,
state in the package-level variables cbConnection and queryRestulColumns)
and a context-based one (src/unnamed/part_000, state in a cbContext value).
Both are embedded here, the global variant in namespace `GW` with the
package-level state gathered into `PkgState`, the context variant in
namespace `CTX` on the `cbContext` structure.

Collaborators that the spec declares out of scope are abstracted:
the HTTP transport and the JSON decoder are replaced by the `WireResp`
oracle handed to each operation (one per HTTP call the source makes), and
`docbCall` mirrors only the result shape of the Go function of the same
name: the triple (bool, decoded envelope, error).  JSON numbers are
modelled as rationals; the library only stores them, it never computes
with them.  `json.Marshal` applied to a compound value is modelled by the
`PVal.j` constructor of request-parameter values: `PVal.j v` stands for
the serialized text of `v`, `PVal.s s` for a plain string parameter.
The MD5 primitive is embedded in full (`getMD5Hash`), byte for byte the
standard algorithm over the UTF-8 bytes of the input, as crypto/md5 plus
hex.EncodeToString compute it.

A Go type assertion such as `dat["result"].(map[string]interface{})`
panics when the dynamic type does not match; a panic is modelled by the
operation's `out` field being `none`.  The `reqs` field of `OpOut` lists
the HTTP requests the operation issued (method and parameters), in order,
including those issued before a panic.
-/

set_option maxRecDepth 4000

namespace CoreBOSLib

/-- Decoded JSON values, as the JSON collaborator hands them to the library. -/
inductive JVal : Type
  | jnull : JVal
  | jbool : Bool → JVal
  | jnum : ℚ → JVal
  | jstr : String → JVal
  | jarr : List JVal → JVal
  | jobj : List (String × JVal) → JVal

/-- A decoded JSON object: what Go's `map[string]interface\x7b\x7d` holds. -/
abbrev JObj := List (String × JVal)

/-- Field access `dat[k]` on a decoded object (`none` models Go's nil interface). -/
def getF (o : JObj) (k : String) : Option JVal :=
  (o.find? (fun p => p.1 == k)).map (fun p => p.2)

/-- The type assertion `.(map[string]interface\x7b\x7d)`. -/
def asObj : JVal → Option JObj
  | .jobj l => some l
  | _ => none

/-- The type assertion `.(string)`. -/
def asStr : JVal → Option String
  | .jstr s => some s
  | _ => none

/-- The type assertion `.(float64)`. -/
def asNum : JVal → Option ℚ
  | .jnum q => some q
  | _ => none

/-- The type assertion `.(bool)`. -/
def asBool : JVal → Option Bool
  | .jbool b => some b
  | _ => none

/-- The type assertion `.([]interface\x7b\x7d)`. -/
def asArr : JVal → Option (List JVal)
  | .jarr l => some l
  | _ => none

/-- Go's `dat["success"] == true`: a nil interface or any non-`true` value compares false. -/
def successTrue (dat : JObj) : Bool :=
  match getF dat "success" with
  | some (.jbool true) => true
  | _ => false

/-- The shared remote-error branch:
`errors.New(wserr["code"].(string) + ": " + wserr["message"].(string))`
built from `dat["error"].(map[string]interface\x7b\x7d)`; `none` models the
panic when the error object or its fields are absent or mistyped. -/
def remoteErr (dat : JObj) : Option String :=
  match (getF dat "error").bind asObj with
  | none => none
  | some eo =>
    match (getF eo "code").bind asStr, (getF eo "message").bind asStr with
    | some c, some m => some (c ++ ": " ++ m)
    | _, _ => none

/-- What one HTTP round trip can yield, seen after the out-of-scope
transport and JSON collaborators have run: a transport (or body-read)
error, a JSON decode error, or a decoded envelope object. -/
inductive WireResp : Type
  | transport : String → WireResp
  | decodeFail : String → WireResp
  | ok : JObj → WireResp

/-- The result triple of the Go `docbCall`: (reached-decoding, decoded map, error).
On a transport error it returns (false, empty, err); on a decode error
(true, zero map, err); on success (true, dat, nil). -/
def docbCall (r : WireResp) : Bool × JObj × Option String :=
  match r with
  | .transport e => (false, [], some e)
  | .decodeFail e => (true, [], some e)
  | .ok dat => (true, dat, none)

/-- A request-parameter value: a plain string, or (`j v`) the string
`json.Marshal` produces for the compound value `v`. -/
inductive PVal : Type
  | s : String → PVal
  | j : JVal → PVal

/-- The `url.Values` parameter set (every value in the source is a one-element list). -/
abbrev Params := List (String × PVal)

/-- `url.Values.Get`: first value for the key, or the empty string. -/
def Params.get (v : Params) (k : String) : String :=
  match v.find? (fun p => p.1 == k) with
  | some (_, .s val) => val
  | _ => ""

/-- `url.Values.Set`: replace the key's value, or add the pair. -/
def Params.set (v : Params) (k : String) (val : PVal) : Params :=
  if v.any (fun p => p.1 == k) then
    v.map (fun p => if p.1 == k then (k, val) else p)
  else v ++ [(k, val)]

/-- One HTTP request the library issues: the method docbCall selects and
the parameter set it encodes. -/
structure Request where
  method : String
  params : Params

/-- `strings.ToUpper(typeofcall) == "POST"` selects POST, anything else GET. -/
def methodOf (typeofcall : String) : String :=
  if typeofcall.toUpper == "POST" then "POST" else "GET"

/-- An operation's observable outcome: the requests it sent, and
(unless a type assertion panicked) the returned value, the returned
error and the state left behind. -/
structure OpOut (α σ : Type) where
  reqs : List Request
  out : Option (α × Option String × σ)

/-- The connection record both source files declare. -/
structure cbConnectionType where
  servertime : ℚ
  expiretime : String
  token : String
  serviceuser : String
  servicekey : String
  sessionid : String
  userid : String
deriving DecidableEq

/-- The package-level mutable state of the global variant: the variables
`cbConnection` and `queryRestulColumns` (the column map modelled as a
function, matching Go map semantics). -/
structure PkgState where
  cbConnection : cbConnectionType
  queryRestulColumns : Nat → Option String

/-- Point update of a column map: `m[i] = v`. -/
def setMap (m : Nat → Option String) (i : Nat) (v : String) : Nat → Option String :=
  fun j => if j = i then some v else m j

/-- The column-recording loop of DoQuery: `for col := range row` with
`cols[idx] = col; idx++`, starting at the given index, over the first
row's keys.  It writes into the existing map. -/
def fillCols (m : Nat → Option String) (idx : Nat) : List String → (Nat → Option String)
  | [] => m
  | c :: rest => fillCols (setMap m idx c) (idx + 1) rest

/-- `strings.Trim(query, " ;")`: strip leading and trailing spaces and semicolons. -/
def trimSemi (query : String) : String :=
  ⟨((query.data.dropWhile fun c => c == ' ' || c == ';').reverse.dropWhile
      fun c => c == ' ' || c == ';').reverse⟩

/-- The `assigned_user_id` default-fill shared by DoCreate, DoUpdate and
DoRevise: insert the session user id only when the key is absent. -/
def withAssignedUser (valuemap : JObj) (userid : String) : JObj :=
  if valuemap.any (fun p => p.1 == "assigned_user_id") then valuemap
  else valuemap ++ [("assigned_user_id", .jstr userid)]

/-- Go map assignment `m[k] = v` on a string-to-string map modelled as an
association list. -/
def typesSet (m : List (String × String)) (k v : String) : List (String × String) :=
  if m.any (fun p => p.1 == k) then m.map (fun p => if p.1 == k then (k, v) else p)
  else m ++ [(k, v)]

/-- The DoListTypes result loop: `types[mname] = mname` over the decoded
module list, panicking (`none`) on a non-string element. -/
def buildTypes (acc : List (String × String)) : List JVal → Option (List (String × String))
  | [] => some acc
  | m :: rest =>
    match m with
    | .jstr mname => buildTypes (typesSet acc mname mname) rest
    | _ => none

/-- The DoInvoke parameter loop: for each (idx, val) of the caller's map,
`if v.Get(idx) == "" then v.Set(idx, val.(string))`; the `.(string)`
assertion panics on a non-string value. -/
def invokeLoop (v : Params) : List (String × JVal) → Option Params
  | [] => some v
  | (k, val) :: rest =>
    if Params.get v k == "" then
      match val with
      | .jstr str => invokeLoop (Params.set v k (.s str)) rest
      | _ => none
    else invokeLoop v rest

/-! ### MD5 (crypto/md5 followed by hex.EncodeToString)

The digest is computed over the UTF-8 bytes of the input string, exactly
as Go's `[]byte(text)` produces them.  Words are naturals taken modulo
2^32. -/

/-- UTF-8 encoding of one character (code points below 0x110000). -/
def encodeChar (c : Char) : List Nat :=
  let n := c.toNat
  if n < 128 then [n]
  else if n < 2048 then [192 + n / 64, 128 + n % 64]
  else if n < 65536 then [224 + n / 4096, 128 + n / 64 % 64, 128 + n % 64]
  else [240 + n / 262144, 128 + n / 4096 % 64, 128 + n / 64 % 64, 128 + n % 64]

/-- Go's `[]byte(text)`: the UTF-8 bytes of a string. -/
def utf8Bytes (s : String) : List Nat :=
  (s.data.map encodeChar).flatten

/-- 2^32, the word modulus. -/
def w32 : Nat := 4294967296

/-- Left rotation of a 32-bit word (argument below 2^32, amount at most 32). -/
def rotl (x c : Nat) : Nat :=
  x % 2 ^ (32 - c) * 2 ^ c + x / 2 ^ (32 - c)

/-- The 64 MD5 sine-derived constants. -/
def mdK : List Nat :=
  [0xd76aa478, 0xe8c7b756, 0x242070db, 0xc1bdceee,
   0xf57c0faf, 0x4787c62a, 0xa8304613, 0xfd469501,
   0x698098d8, 0x8b44f7af, 0xffff5bb1, 0x895cd7be,
   0x6b901122, 0xfd987193, 0xa679438e, 0x49b40821,
   0xf61e2562, 0xc040b340, 0x265e5a51, 0xe9b6c7aa,
   0xd62f105d, 0x02441453, 0xd8a1e681, 0xe7d3fbc8,
   0x21e1cde6, 0xc33707d6, 0xf4d50d87, 0x455a14ed,
   0xa9e3e905, 0xfcefa3f8, 0x676f02d9, 0x8d2a4c8a,
   0xfffa3942, 0x8771f681, 0x6d9d6122, 0xfde5380c,
   0xa4beea44, 0x4bdecfa9, 0xf6bb4b60, 0xbebfbc70,
   0x289b7ec6, 0xeaa127fa, 0xd4ef3085, 0x04881d05,
   0xd9d4d039, 0xe6db99e5, 0x1fa27cf8, 0xc4ac5665,
   0xf4292244, 0x432aff97, 0xab9423a7, 0xfc93a039,
   0x655b59c3, 0x8f0ccc92, 0xffeff47d, 0x85845dd1,
   0x6fa87e4f, 0xfe2ce6e0, 0xa3014314, 0x4e0811a1,
   0xf7537e82, 0xbd3af235, 0x2ad7d2bb, 0xeb86d391]

/-- The 64 per-round left-rotation amounts. -/
def mdS : List Nat :=
  [7, 12, 17, 22, 7, 12, 17, 22, 7, 12, 17, 22, 7, 12, 17, 22,
   5, 9, 14, 20, 5, 9, 14, 20, 5, 9, 14, 20, 5, 9, 14, 20,
   4, 11, 16, 23, 4, 11, 16, 23, 4, 11, 16, 23, 4, 11, 16, 23,
   6, 10, 15, 21, 6, 10, 15, 21, 6, 10, 15, 21, 6, 10, 15, 21]

/-- One MD5 round: `M` reads the block's 16 little-endian words. -/
def md5Round (M : Nat → Nat) (st : Nat × Nat × Nat × Nat) (i : Nat) :
    Nat × Nat × Nat × Nat :=
  let A := st.1
  let B := st.2.1
  let C := st.2.2.1
  let D := st.2.2.2
  let F :=
    if i < 16 then Nat.lor (Nat.land B C) (Nat.land (4294967295 - B) D)
    else if i < 32 then Nat.lor (Nat.land D B) (Nat.land (4294967295 - D) C)
    else if i < 48 then Nat.xor (Nat.xor B C) D
    else Nat.xor C (Nat.lor B (4294967295 - D))
  let g :=
    if i < 16 then i
    else if i < 32 then (5 * i + 1) % 16
    else if i < 48 then (3 * i + 5) % 16
    else 7 * i % 16
  let tmp := (F + A + mdK.getD i 0 + M g) % w32
  (D, (B + rotl tmp (mdS.getD i 0)) % w32, B, C)

/-- Little-endian word at index `j` of a 64-byte block. -/
def leWord (block : List Nat) (j : Nat) : Nat :=
  block.getD (4 * j) 0 + 256 * block.getD (4 * j + 1) 0 +
    65536 * block.getD (4 * j + 2) 0 + 16777216 * block.getD (4 * j + 3) 0

/-- Process one 64-byte block. -/
def md5Block (st : Nat × Nat × Nat × Nat) (block : List Nat) :
    Nat × Nat × Nat × Nat :=
  let r := (List.range 64).foldl (md5Round (leWord block)) st
  ((st.1 + r.1) % w32, (st.2.1 + r.2.1) % w32,
   (st.2.2.1 + r.2.2.1) % w32, (st.2.2.2 + r.2.2.2) % w32)

/-- MD5 padding: a 0x80 byte, zeros to 56 mod 64, then the bit length as
eight little-endian bytes. -/
def md5Pad (msg : List Nat) : List Nat :=
  let len := msg.length
  let z := (120 - (len + 1) % 64) % 64
  let bitLen := 8 * len % 2 ^ 64
  msg ++ [128] ++ List.replicate z 0 ++
    (List.range 8).map (fun i => bitLen / 2 ^ (8 * i) % 256)

/-- Split into 64-byte chunks (fuel-driven so that the kernel can
evaluate it; the fuel is the list length, and every step consumes at
least one element). -/
def chunks64Go : Nat → List Nat → List (List Nat)
  | 0, _ => []
  | _ + 1, [] => []
  | fuel + 1, a :: rest =>
    (a :: rest).take 64 :: chunks64Go fuel ((a :: rest).drop 64)

/-- Split into 64-byte chunks. -/
def chunks64 (l : List Nat) : List (List Nat) :=
  chunks64Go l.length l

/-- The four bytes of a word, little-endian. -/
def wordBytesLE (w : Nat) : List Nat :=
  [w % 256, w / 256 % 256, w / 65536 % 256, w / 16777216 % 256]

/-- The 16-byte MD5 digest of a byte sequence. -/
def md5Digest (msg : List Nat) : List Nat :=
  let st := (chunks64 (md5Pad msg)).foldl md5Block
    (1732584193, 4023233417, 2562383102, 271733878)
  wordBytesLE st.1 ++ wordBytesLE st.2.1 ++ wordBytesLE st.2.2.1 ++ wordBytesLE st.2.2.2

/-- Hexadecimal digit characters. -/
def hexDigit (n : Nat) : Char :=
  "0123456789abcdef".data.getD n '0'

/-- The two lowercase hex characters of one byte. -/
def byteHex (b : Nat) : List Char :=
  [hexDigit (b / 16), hexDigit (b % 16)]

/-- The Go helper `getMD5Hash`: lowercase hex MD5 digest of the text. -/
def getMD5Hash (text : String) : String :=
  ⟨((md5Digest (utf8Bytes text)).map byteHex).flatten⟩

/-!  ### The global-state variant (src/corebosgowslib.go)

Each function takes the package state and one `WireResp` per `docbCall`
the source makes, and yields an `OpOut`. -/

namespace GW

/-- `GetResultColumns` of the global variant. -/
def GetResultColumns (st : PkgState) : Nat → Option String :=
  st.queryRestulColumns

/-- `doChallenge` of the global variant. -/
def doChallenge (st : PkgState) (username : String) (r : WireResp) :
    OpOut Bool PkgState :=
  let v : Params := [( "operation", .s "getchallenge"), ( "username", .s username)]
  let req : Request := ⟨ "GET", v⟩
  let c := docbCall r
  let dat := c.2.1
  let e := c.2.2
  if e = none ∧ successTrue dat = true then
    match (getF dat "result").bind asObj with
    | some rdo =>
      match (getF rdo "serverTime").bind asNum, (getF rdo "expireTime").bind asStr,
          (getF rdo "token").bind asStr with
      | some stime, some etime, some tok =>
        ⟨[req], some (true, none,
          { st with cbConnection := { st.cbConnection with
              servertime := stime, expiretime := etime, token := tok } })⟩
      | _, _, _ => ⟨[req], none⟩
    | none => ⟨[req], none⟩
  else
    ⟨[req], some (false, e, st)⟩

/-- `DoLogin` of the global variant (`r1` answers the challenge call,
`r2` the login call). -/
def DoLogin (st : PkgState) (username userAccesskey : String) (withpassword : Bool)
    (r1 r2 : WireResp) : OpOut Bool PkgState :=
  let ch := doChallenge st username r1
  match ch.out with
  | none => ⟨ch.reqs, none⟩
  | some (dc, err, st1) =>
    if dc = false then ⟨ch.reqs, some (false, err, st1)⟩
    else
      let v0 : Params := [( "operation", .s "login"), ( "username", .s username)]
      let v :=
        if withpassword = true then
          Params.set v0 "accessKey" (.s (st1.cbConnection.token ++ userAccesskey))
        else
          Params.set v0 "accessKey" (.s (getMD5Hash (st1.cbConnection.token ++ userAccesskey)))
      let req : Request := ⟨ "POST", v⟩
      let c := docbCall r2
      let dat := c.2.1
      let e := c.2.2
      if e = none ∧ successTrue dat = true then
        match (getF dat "result").bind asObj with
        | some rdo =>
          match (getF rdo "sessionName").bind asStr, (getF rdo "userId").bind asStr with
          | some sid, some uid =>
            ⟨ch.reqs ++ [req], some (true, none,
              { st1 with cbConnection := { st1.cbConnection with
                  serviceuser := username, servicekey := userAccesskey,
                  sessionid := sid, userid := uid } })⟩
          | _, _ => ⟨ch.reqs ++ [req], none⟩
        | none => ⟨ch.reqs ++ [req], none⟩
      else if e = none then
        match remoteErr dat with
        | some msg => ⟨ch.reqs ++ [req], some (false, some msg, st1)⟩
        | none => ⟨ch.reqs ++ [req], none⟩
      else
        ⟨ch.reqs ++ [req], some (false, e, st1)⟩

/-- `DoLogout` of the global variant. -/
def DoLogout (st : PkgState) (r : WireResp) : OpOut Bool PkgState :=
  let v : Params := [( "operation", .s "logout"),
    ( "sessionName", .s st.cbConnection.sessionid)]
  let req : Request := ⟨ "POST", v⟩
  let c := docbCall r
  let dat := c.2.1
  let e := c.2.2
  if e = none ∧ successTrue dat = true then
    ⟨[req], some (true, none, st)⟩
  else if e = none then
    match remoteErr dat with
    | some msg => ⟨[req], some (false, some msg, st)⟩
    | none => ⟨[req], none⟩
  else
    ⟨[req], some (false, e, st)⟩

/-- `DoQuery` of the global variant. -/
def DoQuery (st : PkgState) (query : String) (r : WireResp) : OpOut JVal PkgState :=
  let q := trimSemi query ++ ";"
  let v : Params := [( "operation", .s "query"),
    ( "sessionName", .s st.cbConnection.sessionid), ( "query", .s q)]
  let req : Request := ⟨ "GET", v⟩
  let c := docbCall r
  let dat := c.2.1
  let e := c.2.2
  if e = none ∧ successTrue dat = true then
    match getF dat "result" with
    | some (.jarr rdos) =>
      match rdos with
      | first :: _ =>
        match asObj first with
        | some fobj =>
          ⟨[req], some (.jarr rdos, none,
            { st with queryRestulColumns :=
                fillCols st.queryRestulColumns 0 (fobj.map (fun p => p.1)) })⟩
        | none => ⟨[req], none⟩
      | [] =>
        ⟨[req], some (.jarr rdos, none, { st with queryRestulColumns := fun _ => none })⟩
    | _ => ⟨[req], none⟩
  else if e = none then
    match remoteErr dat with
    | some msg => ⟨[req], some (.jobj [], some msg, st)⟩
    | none => ⟨[req], none⟩
  else
    ⟨[req], some (.jobj [], e, st)⟩

/-- `DoListTypes` of the global variant. -/
def DoListTypes (st : PkgState) (fieldTypeList : List String) (r : WireResp) :
    OpOut (List (String × String)) PkgState :=
  let v : Params := [( "operation", .s "listtypes"),
    ( "sessionName", .s st.cbConnection.sessionid),
    ( "fieldTypeList", .j (.jarr (fieldTypeList.map .jstr)))]
  let req : Request := ⟨ "GET", v⟩
  let c := docbCall r
  let dat := c.2.1
  let e := c.2.2
  if e = none ∧ successTrue dat = true then
    match (getF dat "result").bind asObj with
    | some rdos =>
      match (getF rdos "types").bind asArr with
      | some mods =>
        match buildTypes [] mods with
        | some types => ⟨[req], some (types, none, st)⟩
        | none => ⟨[req], none⟩
      | none => ⟨[req], none⟩
    | none => ⟨[req], none⟩
  else if e = none then
    match remoteErr dat with
    | some msg => ⟨[req], some ([], some msg, st)⟩
    | none => ⟨[req], none⟩
  else
    ⟨[req], some ([], e, st)⟩

/-- `DoDescribe` of the global variant. -/
def DoDescribe (st : PkgState) (module : String) (r : WireResp) : OpOut JObj PkgState :=
  let v : Params := [( "operation", .s "describe"),
    ( "sessionName", .s st.cbConnection.sessionid), ( "elementType", .s module)]
  let req : Request := ⟨ "GET", v⟩
  let c := docbCall r
  let dat := c.2.1
  let e := c.2.2
  if e = none ∧ successTrue dat = true then
    match (getF dat "result").bind asObj with
    | some rdo => ⟨[req], some (rdo, none, st)⟩
    | none => ⟨[req], none⟩
  else if e = none then
    match remoteErr dat with
    | some msg => ⟨[req], some ([], some msg, st)⟩
    | none => ⟨[req], none⟩
  else
    ⟨[req], some ([], e, st)⟩

/-- `DoRetrieve` of the global variant. -/
def DoRetrieve (st : PkgState) (record : String) (r : WireResp) : OpOut JObj PkgState :=
  let v : Params := [( "operation", .s "retrieve"),
    ( "sessionName", .s st.cbConnection.sessionid), ( "id", .s record)]
  let req : Request := ⟨ "GET", v⟩
  let c := docbCall r
  let dat := c.2.1
  let e := c.2.2
  if e = none ∧ successTrue dat = true then
    match (getF dat "result").bind asObj with
    | some rdo => ⟨[req], some (rdo, none, st)⟩
    | none => ⟨[req], none⟩
  else if e = none then
    match remoteErr dat with
    | some msg => ⟨[req], some ([], some msg, st)⟩
    | none => ⟨[req], none⟩
  else
    ⟨[req], some ([], e, st)⟩

/-- `DoCreate` of the global variant. -/
def DoCreate (st : PkgState) (module : String) (valuemap : JObj) (r : WireResp) :
    OpOut JObj PkgState :=
  let vm := withAssignedUser valuemap st.cbConnection.userid
  let v : Params := [( "operation", .s "create"),
    ( "sessionName", .s st.cbConnection.sessionid), ( "elementType", .s module),
    ( "element", .j (.jobj vm))]
  let req : Request := ⟨ "POST", v⟩
  let c := docbCall r
  let dat := c.2.1
  let e := c.2.2
  if e = none ∧ successTrue dat = true then
    match (getF dat "result").bind asObj with
    | some rdo => ⟨[req], some (rdo, none, st)⟩
    | none => ⟨[req], none⟩
  else if e = none then
    match remoteErr dat with
    | some msg => ⟨[req], some ([], some msg, st)⟩
    | none => ⟨[req], none⟩
  else
    ⟨[req], some ([], e, st)⟩

/-- `DoUpdate` of the global variant. -/
def DoUpdate (st : PkgState) (module : String) (valuemap : JObj) (r : WireResp) :
    OpOut JObj PkgState :=
  let vm := withAssignedUser valuemap st.cbConnection.userid
  let v : Params := [( "operation", .s "update"),
    ( "sessionName", .s st.cbConnection.sessionid), ( "elementType", .s module),
    ( "element", .j (.jobj vm))]
  let req : Request := ⟨ "POST", v⟩
  let c := docbCall r
  let dat := c.2.1
  let e := c.2.2
  if e = none ∧ successTrue dat = true then
    match (getF dat "result").bind asObj with
    | some rdo => ⟨[req], some (rdo, none, st)⟩
    | none => ⟨[req], none⟩
  else if e = none then
    match remoteErr dat with
    | some msg => ⟨[req], some ([], some msg, st)⟩
    | none => ⟨[req], none⟩
  else
    ⟨[req], some ([], e, st)⟩

/-- `DoRevise` of the global variant. -/
def DoRevise (st : PkgState) (module : String) (valuemap : JObj) (r : WireResp) :
    OpOut JObj PkgState :=
  let vm := withAssignedUser valuemap st.cbConnection.userid
  let v : Params := [( "operation", .s "revise"),
    ( "sessionName", .s st.cbConnection.sessionid), ( "elementType", .s module),
    ( "element", .j (.jobj vm))]
  let req : Request := ⟨ "POST", v⟩
  let c := docbCall r
  let dat := c.2.1
  let e := c.2.2
  if e = none ∧ successTrue dat = true then
    match (getF dat "result").bind asObj with
    | some rdo => ⟨[req], some (rdo, none, st)⟩
    | none => ⟨[req], none⟩
  else if e = none then
    match remoteErr dat with
    | some msg => ⟨[req], some ([], some msg, st)⟩
    | none => ⟨[req], none⟩
  else
    ⟨[req], some ([], e, st)⟩

/-- `DoDelete` of the global variant. -/
def DoDelete (st : PkgState) (record : String) (r : WireResp) : OpOut Bool PkgState :=
  let v : Params := [( "operation", .s "delete"),
    ( "sessionName", .s st.cbConnection.sessionid), ( "id", .s record)]
  let req : Request := ⟨ "POST", v⟩
  let c := docbCall r
  let dat := c.2.1
  let e := c.2.2
  if e = none ∧ successTrue dat = true then
    match (getF dat "result").bind asObj with
    | some rdo =>
      match (getF rdo "status").bind asStr with
      | some s =>
        if s = "successful" then ⟨[req], some (true, none, st)⟩
        else ⟨[req], some (false, some "Unexpected DELETE error", st)⟩
      | none => ⟨[req], none⟩
    | none => ⟨[req], none⟩
  else if e = none then
    match remoteErr dat with
    | some msg => ⟨[req], some (false, some msg, st)⟩
    | none => ⟨[req], none⟩
  else
    ⟨[req], some (false, e, st)⟩

/-- `DoInvoke` of the global variant. -/
def DoInvoke (st : PkgState) (method : String) (params : List (String × JVal))
    (typeofcall : String) (r : WireResp) : OpOut JObj PkgState :=
  let v0 : Params := [( "operation", .s method),
    ( "sessionName", .s st.cbConnection.sessionid)]
  match invokeLoop v0 params with
  | none => ⟨[], none⟩
  | some v =>
    let req : Request := ⟨methodOf typeofcall, v⟩
    let c := docbCall r
    let dat := c.2.1
    let e := c.2.2
    if e = none ∧ successTrue dat = true then
      match (getF dat "result").bind asObj with
      | some rdo => ⟨[req], some (rdo, none, st)⟩
      | none => ⟨[req], none⟩
    else if e = none then
      match remoteErr dat with
      | some msg => ⟨[req], some ([], some msg, st)⟩
      | none => ⟨[req], none⟩
    else
      ⟨[req], some ([], e, st)⟩

/-- `DoGetRelatedRecords` of the global variant. -/
def DoGetRelatedRecords (st : PkgState) (record module relatedModule : String)
    (queryParameters : JObj) (r : WireResp) : OpOut (List JVal) PkgState :=
  let v : Params := [( "operation", .s "getRelatedRecords"),
    ( "sessionName", .s st.cbConnection.sessionid), ( "id", .s record),
    ( "module", .s module), ( "relatedModule", .s relatedModule),
    ( "queryParameters", .j (.jobj queryParameters))]
  let req : Request := ⟨ "POST", v⟩
  let c := docbCall r
  let dat := c.2.1
  let e := c.2.2
  if e = none ∧ successTrue dat = true then
    match (getF dat "result").bind asObj with
    | some rdo =>
      match (getF rdo "records").bind asArr with
      | some recs => ⟨[req], some (recs, none, st)⟩
      | none => ⟨[req], none⟩
    | none => ⟨[req], none⟩
  else if e = none then
    match remoteErr dat with
    | some msg => ⟨[req], some ([], some msg, st)⟩
    | none => ⟨[req], none⟩
  else
    ⟨[req], some ([], e, st)⟩

/-- `DoSetRelated` of the global variant. -/
def DoSetRelated (st : PkgState) (relateThisID : String) (withTheseIds : List String)
    (r : WireResp) : OpOut Bool PkgState :=
  let v : Params := [( "operation", .s "SetRelation"),
    ( "sessionName", .s st.cbConnection.sessionid),
    ( "relate_this_id", .s relateThisID),
    ( "with_these_ids", .j (.jarr (withTheseIds.map .jstr)))]
  let req : Request := ⟨ "POST", v⟩
  let c := docbCall r
  let dat := c.2.1
  let e := c.2.2
  if e = none ∧ successTrue dat = true then
    match (getF dat "result").bind asBool with
    | some b => ⟨[req], some (b, none, st)⟩
    | none => ⟨[req], none⟩
  else if e = none then
    match remoteErr dat with
    | some msg => ⟨[req], some (false, some msg, st)⟩
    | none => ⟨[req], none⟩
  else
    ⟨[req], some (false, e, st)⟩

/-- `DoLoginPage` of the global variant. -/
def DoLoginPage (st : PkgState) (template language csrf : String) (r : WireResp) :
    OpOut String PkgState :=
  let v : Params := [( "operation", .s "getLoginPage"),
    ( "sessionName", .s st.cbConnection.sessionid), ( "template", .s template),
    ( "language", .s language), ( "csrf", .s csrf)]
  let req : Request := ⟨ "GET", v⟩
  let c := docbCall r
  let dat := c.2.1
  let e := c.2.2
  if e = none ∧ successTrue dat = true then
    match getF dat "result" with
    | some (.jstr s) => ⟨[req], some (s, none, st)⟩
    | _ => ⟨[req], none⟩
  else if e = none then
    match remoteErr dat with
    | some msg => ⟨[req], some ("", some msg, st)⟩
    | none => ⟨[req], none⟩
  else
    ⟨[req], some ("", e, st)⟩

end GW

/-!  ### The context-based variant (src/unnamed/part_000)

The same operations as methods on a `cbContext` value. -/

namespace CTX

/-- The `cbContext` structure of the context variant. -/
structure cbContext where
  cbConnection : cbConnectionType
  queryResultColumns : Nat → Option String

/-- `GetCbContext`: a fresh context (zero-valued connection, empty column map). -/
def GetCbContext : cbContext :=
  ⟨⟨0, "", "", "", "", "", ""⟩, fun _ => none⟩

/-- `GetServerTime` accessor. -/
def GetServerTime (cbCtx : cbContext) : ℚ :=
  cbCtx.cbConnection.servertime

/-- `GetExpireTime` accessor. -/
def GetExpireTime (cbCtx : cbContext) : String :=
  cbCtx.cbConnection.expiretime

/-- `GetToken` accessor. -/
def GetToken (cbCtx : cbContext) : String :=
  cbCtx.cbConnection.token

/-- `GetServiceUser` accessor. -/
def GetServiceUser (cbCtx : cbContext) : String :=
  cbCtx.cbConnection.serviceuser

/-- `GetServiceKey` accessor. -/
def GetServiceKey (cbCtx : cbContext) : String :=
  cbCtx.cbConnection.servicekey

/-- `GetSessionId` accessor. -/
def GetSessionId (cbCtx : cbContext) : String :=
  cbCtx.cbConnection.sessionid

/-- `GetUserId` accessor. -/
def GetUserId (cbCtx : cbContext) : String :=
  cbCtx.cbConnection.userid

/-- `GetResultColumns` of the context variant. -/
def GetResultColumns (cbCtx : cbContext) : Nat → Option String :=
  cbCtx.queryResultColumns

/-- `doChallenge` of the context variant. -/
def doChallenge (cbCtx : cbContext) (username : String) (r : WireResp) :
    OpOut Bool cbContext :=
  let v : Params := [( "operation", .s "getchallenge"), ( "username", .s username)]
  let req : Request := ⟨ "GET", v⟩
  let c := docbCall r
  let dat := c.2.1
  let e := c.2.2
  if e = none ∧ successTrue dat = true then
    match (getF dat "result").bind asObj with
    | some rdo =>
      match (getF rdo "serverTime").bind asNum, (getF rdo "expireTime").bind asStr,
          (getF rdo "token").bind asStr with
      | some stime, some etime, some tok =>
        ⟨[req], some (true, none,
          { cbCtx with cbConnection := { cbCtx.cbConnection with
              servertime := stime, expiretime := etime, token := tok } })⟩
      | _, _, _ => ⟨[req], none⟩
    | none => ⟨[req], none⟩
  else
    ⟨[req], some (false, e, cbCtx)⟩

/-- `DoLogin` of the context variant. -/
def DoLogin (cbCtx : cbContext) (username userAccesskey : String) (withpassword : Bool)
    (r1 r2 : WireResp) : OpOut Bool cbContext :=
  let ch := doChallenge cbCtx username r1
  match ch.out with
  | none => ⟨ch.reqs, none⟩
  | some (dc, err, ctx1) =>
    if dc = false then ⟨ch.reqs, some (false, err, ctx1)⟩
    else
      let v0 : Params := [( "operation", .s "login"), ( "username", .s username)]
      let v :=
        if withpassword = true then
          Params.set v0 "accessKey" (.s (ctx1.cbConnection.token ++ userAccesskey))
        else
          Params.set v0 "accessKey" (.s (getMD5Hash (ctx1.cbConnection.token ++ userAccesskey)))
      let req : Request := ⟨ "POST", v⟩
      let c := docbCall r2
      let dat := c.2.1
      let e := c.2.2
      if e = none ∧ successTrue dat = true then
        match (getF dat "result").bind asObj with
        | some rdo =>
          match (getF rdo "sessionName").bind asStr, (getF rdo "userId").bind asStr with
          | some sid, some uid =>
            ⟨ch.reqs ++ [req], some (true, none,
              { ctx1 with cbConnection := { ctx1.cbConnection with
                  serviceuser := username, servicekey := userAccesskey,
                  sessionid := sid, userid := uid } })⟩
          | _, _ => ⟨ch.reqs ++ [req], none⟩
        | none => ⟨ch.reqs ++ [req], none⟩
      else if e = none then
        match remoteErr dat with
        | some msg => ⟨ch.reqs ++ [req], some (false, some msg, ctx1)⟩
        | none => ⟨ch.reqs ++ [req], none⟩
      else
        ⟨ch.reqs ++ [req], some (false, e, ctx1)⟩

/-- `DoLogout` of the context variant. -/
def DoLogout (cbCtx : cbContext) (r : WireResp) : OpOut Bool cbContext :=
  let v : Params := [( "operation", .s "logout"),
    ( "sessionName", .s cbCtx.cbConnection.sessionid)]
  let req : Request := ⟨ "POST", v⟩
  let c := docbCall r
  let dat := c.2.1
  let e := c.2.2
  if e = none ∧ successTrue dat = true then
    ⟨[req], some (true, none, cbCtx)⟩
  else if e = none then
    match remoteErr dat with
    | some msg => ⟨[req], some (false, some msg, cbCtx)⟩
    | none => ⟨[req], none⟩
  else
    ⟨[req], some (false, e, cbCtx)⟩

/-- `DoQuery` of the context variant. -/
def DoQuery (cbCtx : cbContext) (query : String) (r : WireResp) : OpOut JVal cbContext :=
  let q := trimSemi query ++ ";"
  let v : Params := [( "operation", .s "query"),
    ( "sessionName", .s cbCtx.cbConnection.sessionid), ( "query", .s q)]
  let req : Request := ⟨ "GET", v⟩
  let c := docbCall r
  let dat := c.2.1
  let e := c.2.2
  if e = none ∧ successTrue dat = true then
    match getF dat "result" with
    | some (.jarr rdos) =>
      match rdos with
      | first :: _ =>
        match asObj first with
        | some fobj =>
          ⟨[req], some (.jarr rdos, none,
            { cbCtx with queryResultColumns :=
                (fillCols cbCtx.queryResultColumns 0 (fobj.map (fun p => p.1))) })⟩
        | none => ⟨[req], none⟩
      | [] =>
        ⟨[req], some (.jarr rdos, none, { cbCtx with queryResultColumns := fun _ => none })⟩
    | _ => ⟨[req], none⟩
  else if e = none then
    match remoteErr dat with
    | some msg => ⟨[req], some (.jobj [], some msg, cbCtx)⟩
    | none => ⟨[req], none⟩
  else
    ⟨[req], some (.jobj [], e, cbCtx)⟩

/-- `DoListTypes` of the context variant. -/
def DoListTypes (cbCtx : cbContext) (fieldTypeList : List String) (r : WireResp) :
    OpOut (List (String × String)) cbContext :=
  let v : Params := [( "operation", .s "listtypes"),
    ( "sessionName", .s cbCtx.cbConnection.sessionid),
    ( "fieldTypeList", .j (.jarr (fieldTypeList.map .jstr)))]
  let req : Request := ⟨ "GET", v⟩
  let c := docbCall r
  let dat := c.2.1
  let e := c.2.2
  if e = none ∧ successTrue dat = true then
    match (getF dat "result").bind asObj with
    | some rdos =>
      match (getF rdos "types").bind asArr with
      | some mods =>
        match buildTypes [] mods with
        | some types => ⟨[req], some (types, none, cbCtx)⟩
        | none => ⟨[req], none⟩
      | none => ⟨[req], none⟩
    | none => ⟨[req], none⟩
  else if e = none then
    match remoteErr dat with
    | some msg => ⟨[req], some ([], some msg, cbCtx)⟩
    | none => ⟨[req], none⟩
  else
    ⟨[req], some ([], e, cbCtx)⟩

/-- `DoDescribe` of the context variant. -/
def DoDescribe (cbCtx : cbContext) (module : String) (r : WireResp) : OpOut JObj cbContext :=
  let v : Params := [( "operation", .s "describe"),
    ( "sessionName", .s cbCtx.cbConnection.sessionid), ( "elementType", .s module)]
  let req : Request := ⟨ "GET", v⟩
  let c := docbCall r
  let dat := c.2.1
  let e := c.2.2
  if e = none ∧ successTrue dat = true then
    match (getF dat "result").bind asObj with
    | some rdo => ⟨[req], some (rdo, none, cbCtx)⟩
    | none => ⟨[req], none⟩
  else if e = none then
    match remoteErr dat with
    | some msg => ⟨[req], some ([], some msg, cbCtx)⟩
    | none => ⟨[req], none⟩
  else
    ⟨[req], some ([], e, cbCtx)⟩

/-- `DoRetrieve` of the context variant. -/
def DoRetrieve (cbCtx : cbContext) (record : String) (r : WireResp) : OpOut JObj cbContext :=
  let v : Params := [( "operation", .s "retrieve"),
    ( "sessionName", .s cbCtx.cbConnection.sessionid), ( "id", .s record)]
  let req : Request := ⟨ "GET", v⟩
  let c := docbCall r
  let dat := c.2.1
  let e := c.2.2
  if e = none ∧ successTrue dat = true then
    match (getF dat "result").bind asObj with
    | some rdo => ⟨[req], some (rdo, none, cbCtx)⟩
    | none => ⟨[req], none⟩
  else if e = none then
    match remoteErr dat with
    | some msg => ⟨[req], some ([], some msg, cbCtx)⟩
    | none => ⟨[req], none⟩
  else
    ⟨[req], some ([], e, cbCtx)⟩

/-- `DoCreate` of the context variant. -/
def DoCreate (cbCtx : cbContext) (module : String) (valuemap : JObj) (r : WireResp) :
    OpOut JObj cbContext :=
  let vm := withAssignedUser valuemap cbCtx.cbConnection.userid
  let v : Params := [( "operation", .s "create"),
    ( "sessionName", .s cbCtx.cbConnection.sessionid), ( "elementType", .s module),
    ( "element", .j (.jobj vm))]
  let req : Request := ⟨ "POST", v⟩
  let c := docbCall r
  let dat := c.2.1
  let e := c.2.2
  if e = none ∧ successTrue dat = true then
    match (getF dat "result").bind asObj with
    | some rdo => ⟨[req], some (rdo, none, cbCtx)⟩
    | none => ⟨[req], none⟩
  else if e = none then
    match remoteErr dat with
    | some msg => ⟨[req], some ([], some msg, cbCtx)⟩
    | none => ⟨[req], none⟩
  else
    ⟨[req], some ([], e, cbCtx)⟩

/-- `DoUpdate` of the context variant. -/
def DoUpdate (cbCtx : cbContext) (module : String) (valuemap : JObj) (r : WireResp) :
    OpOut JObj cbContext :=
  let vm := withAssignedUser valuemap cbCtx.cbConnection.userid
  let v : Params := [( "operation", .s "update"),
    ( "sessionName", .s cbCtx.cbConnection.sessionid), ( "elementType", .s module),
    ( "element", .j (.jobj vm))]
  let req : Request := ⟨ "POST", v⟩
  let c := docbCall r
  let dat := c.2.1
  let e := c.2.2
  if e = none ∧ successTrue dat = true then
    match (getF dat "result").bind asObj with
    | some rdo => ⟨[req], some (rdo, none, cbCtx)⟩
    | none => ⟨[req], none⟩
  else if e = none then
    match remoteErr dat with
    | some msg => ⟨[req], some ([], some msg, cbCtx)⟩
    | none => ⟨[req], none⟩
  else
    ⟨[req], some ([], e, cbCtx)⟩

/-- `DoRevise` of the context variant. -/
def DoRevise (cbCtx : cbContext) (module : String) (valuemap : JObj) (r : WireResp) :
    OpOut JObj cbContext :=
  let vm := withAssignedUser valuemap cbCtx.cbConnection.userid
  let v : Params := [( "operation", .s "revise"),
    ( "sessionName", .s cbCtx.cbConnection.sessionid), ( "elementType", .s module),
    ( "element", .j (.jobj vm))]
  let req : Request := ⟨ "POST", v⟩
  let c := docbCall r
  let dat := c.2.1
  let e := c.2.2
  if e = none ∧ successTrue dat = true then
    match (getF dat "result").bind asObj with
    | some rdo => ⟨[req], some (rdo, none, cbCtx)⟩
    | none => ⟨[req], none⟩
  else if e = none then
    match remoteErr dat with
    | some msg => ⟨[req], some ([], some msg, cbCtx)⟩
    | none => ⟨[req], none⟩
  else
    ⟨[req], some ([], e, cbCtx)⟩

/-- `DoDelete` of the context variant. -/
def DoDelete (cbCtx : cbContext) (record : String) (r : WireResp) : OpOut Bool cbContext :=
  let v : Params := [( "operation", .s "delete"),
    ( "sessionName", .s cbCtx.cbConnection.sessionid), ( "id", .s record)]
  let req : Request := ⟨ "POST", v⟩
  let c := docbCall r
  let dat := c.2.1
  let e := c.2.2
  if e = none ∧ successTrue dat = true then
    match (getF dat "result").bind asObj with
    | some rdo =>
      match (getF rdo "status").bind asStr with
      | some s =>
        if s = "successful" then ⟨[req], some (true, none, cbCtx)⟩
        else ⟨[req], some (false, some "Unexpected DELETE error", cbCtx)⟩
      | none => ⟨[req], none⟩
    | none => ⟨[req], none⟩
  else if e = none then
    match remoteErr dat with
    | some msg => ⟨[req], some (false, some msg, cbCtx)⟩
    | none => ⟨[req], none⟩
  else
    ⟨[req], some (false, e, cbCtx)⟩

/-- `DoInvoke` of the context variant. -/
def DoInvoke (cbCtx : cbContext) (method : String) (params : List (String × JVal))
    (typeofcall : String) (r : WireResp) : OpOut JObj cbContext :=
  let v0 : Params := [( "operation", .s method),
    ( "sessionName", .s cbCtx.cbConnection.sessionid)]
  match invokeLoop v0 params with
  | none => ⟨[], none⟩
  | some v =>
    let req : Request := ⟨methodOf typeofcall, v⟩
    let c := docbCall r
    let dat := c.2.1
    let e := c.2.2
    if e = none ∧ successTrue dat = true then
      match (getF dat "result").bind asObj with
      | some rdo => ⟨[req], some (rdo, none, cbCtx)⟩
      | none => ⟨[req], none⟩
    else if e = none then
      match remoteErr dat with
      | some msg => ⟨[req], some ([], some msg, cbCtx)⟩
      | none => ⟨[req], none⟩
    else
      ⟨[req], some ([], e, cbCtx)⟩

/-- `DoGetRelatedRecords` of the context variant. -/
def DoGetRelatedRecords (cbCtx : cbContext) (record module relatedModule : String)
    (queryParameters : JObj) (r : WireResp) : OpOut (List JVal) cbContext :=
  let v : Params := [( "operation", .s "getRelatedRecords"),
    ( "sessionName", .s cbCtx.cbConnection.sessionid), ( "id", .s record),
    ( "module", .s module), ( "relatedModule", .s relatedModule),
    ( "queryParameters", .j (.jobj queryParameters))]
  let req : Request := ⟨ "POST", v⟩
  let c := docbCall r
  let dat := c.2.1
  let e := c.2.2
  if e = none ∧ successTrue dat = true then
    match (getF dat "result").bind asObj with
    | some rdo =>
      match (getF rdo "records").bind asArr with
      | some recs => ⟨[req], some (recs, none, cbCtx)⟩
      | none => ⟨[req], none⟩
    | none => ⟨[req], none⟩
  else if e = none then
    match remoteErr dat with
    | some msg => ⟨[req], some ([], some msg, cbCtx)⟩
    | none => ⟨[req], none⟩
  else
    ⟨[req], some ([], e, cbCtx)⟩

/-- `DoSetRelated` of the context variant. -/
def DoSetRelated (cbCtx : cbContext) (relateThisID : String) (withTheseIds : List String)
    (r : WireResp) : OpOut Bool cbContext :=
  let v : Params := [( "operation", .s "SetRelation"),
    ( "sessionName", .s cbCtx.cbConnection.sessionid),
    ( "relate_this_id", .s relateThisID),
    ( "with_these_ids", .j (.jarr (withTheseIds.map .jstr)))]
  let req : Request := ⟨ "POST", v⟩
  let c := docbCall r
  let dat := c.2.1
  let e := c.2.2
  if e = none ∧ successTrue dat = true then
    match (getF dat "result").bind asBool with
    | some b => ⟨[req], some (b, none, cbCtx)⟩
    | none => ⟨[req], none⟩
  else if e = none then
    match remoteErr dat with
    | some msg => ⟨[req], some (false, some msg, cbCtx)⟩
    | none => ⟨[req], none⟩
  else
    ⟨[req], some (false, e, cbCtx)⟩

/-- `DoLoginPage` of the context variant. -/
def DoLoginPage (cbCtx : cbContext) (template language csrf : String) (r : WireResp) :
    OpOut String cbContext :=
  let v : Params := [( "operation", .s "getLoginPage"),
    ( "sessionName", .s cbCtx.cbConnection.sessionid), ( "template", .s template),
    ( "language", .s language), ( "csrf", .s csrf)]
  let req : Request := ⟨ "GET", v⟩
  let c := docbCall r
  let dat := c.2.1
  let e := c.2.2
  if e = none ∧ successTrue dat = true then
    match getF dat "result" with
    | some (.jstr s) => ⟨[req], some (s, none, cbCtx)⟩
    | _ => ⟨[req], none⟩
  else if e = none then
    match remoteErr dat with
    | some msg => ⟨[req], some ("", some msg, cbCtx)⟩
    | none => ⟨[req], none⟩
  else
    ⟨[req], some ("", e, cbCtx)⟩

end CTX

/-- The state correspondence between the two variants: the context's
fields play the role of the package-level variables. -/
def toCtx (st : PkgState) : CTX.cbContext :=
  ⟨st.cbConnection, st.queryRestulColumns⟩

/-- Transport a global-variant outcome along the state correspondence. -/
def mapOut {α : Type} (o : OpOut α PkgState) : OpOut α CTX.cbContext :=
  ⟨o.reqs, o.out.map (fun t => (t.1, t.2.1, toCtx t.2.2))⟩

/-!  ### Statement vocabulary and concrete fixtures -/

/-- The getchallenge request DoLogin issues first. -/
def challengeReq (username : String) : Request :=
  ⟨ "GET", [( "operation", .s "getchallenge"), ( "username", .s username)]⟩

/-- The three ways the challenge step fails: transport error, JSON decode
error, or a decoded envelope whose success field does not compare equal
to true (in particular success=false). -/
def ChallengeFails (r : WireResp) : Prop :=
  (∃ m, r = .transport m) ∨ (∃ m, r = .decodeFail m) ∨
    (∃ dat, r = .ok dat ∧ successTrue dat = false)

/-- A well-formed failure envelope: success=false and a structured error
object with the given code and message. -/
def ErrEnvelope (dat : JObj) (code msg : String) : Prop :=
  getF dat "success" = some (.jbool false) ∧
    ∃ eo, getF dat "error" = some (.jobj eo) ∧
      getF eo "code" = some (.jstr code) ∧ getF eo "message" = some (.jstr msg)

/-- The string ends in exactly one trailing semicolon. -/
def ExactlyOneTrailingSemi (q : String) : Prop :=
  ∃ l, q.data = l ++ [';'] ∧ l.getLast? ≠ some ';'

/-- A successful challenge envelope carrying the given server time,
expiry and token. -/
def chalOkResp (stime : ℚ) (etime tok : String) : WireResp :=
  .ok [( "success", .jbool true),
    ( "result", .jobj [( "serverTime", .jnum stime), ( "expireTime", .jstr etime),
      ( "token", .jstr tok)])]

/-- A concrete connection state used by the witnesses. -/
def sampleConn : cbConnectionType :=
  ⟨0, "", "oldtok", "", "", "sess1", "19x1"⟩

/-- A concrete package state used by the witnesses. -/
def sampleState : PkgState :=
  ⟨sampleConn, fun _ => none⟩

/-- The spec's sample failure envelope (INVALID_SESSION / bad session). -/
def invalidSessionDat : JObj :=
  [( "success", .jbool false),
   ( "error", .jobj [( "code", .jstr "INVALID_SESSION"), ( "message", .jstr "bad session")])]

/-- A failure envelope for the login step. -/
def loginErrDat : JObj :=
  [( "success", .jbool false),
   ( "error", .jobj [( "code", .jstr "INVALID_LOGIN"), ( "message", .jstr "bad")])]

/-- A package state in which a previous two-column query left the column
map at index 0 -> id, index 1 -> name. -/
def prevColsState : PkgState :=
  ⟨sampleConn, fun i => if i = 0 then some "id" else if i = 1 then some "name" else none⟩

/-- A successful one-row, one-column query envelope. -/
def oneColDat : JObj :=
  [( "success", .jbool true), ( "result", .jarr [.jobj [( "id", .jstr "1")]])]

/-- A successful zero-row query envelope. -/
def emptyResDat : JObj :=
  [( "success", .jbool true), ( "result", .jarr [])]

/-- A successful delete envelope. -/
def delOkDat : JObj :=
  [( "success", .jbool true), ( "result", .jobj [( "status", .jstr "successful")])]

/-- A success=true delete envelope whose status is not the string "successful". -/
def delBadDat : JObj :=
  [( "success", .jbool true), ( "result", .jobj [( "status", .jstr "pending")])]

/-!  ## Helper lemmas -/

lemma successTrue_of_false (dat : JObj) (h : getF dat "success" = some (.jbool false)) :
    successTrue dat = false := by
  simp [successTrue, h]

lemma remoteErr_of_envelope (dat : JObj) (code msg : String)
    (h : ErrEnvelope dat code msg) :
    remoteErr dat = some (code ++ ": " ++ msg) := by
  obtain ⟨-, eo, he, hc, hm⟩ := h
  simp [remoteErr, he, hc, hm, asObj, asStr]

lemma doChallenge_reqs (st : PkgState) (u : String) (r : WireResp) :
    (GW.doChallenge st u r).reqs = [challengeReq u] := by
  cases r <;> simp only [GW.doChallenge, docbCall, challengeReq] <;>
    (repeat' split) <;> rfl

lemma DoLogin_on_failed_challenge (st : PkgState) (u k : String) (wp : Bool)
    (r1 r2 : WireResp) (h : ChallengeFails r1) :
    GW.DoLogin st u k wp r1 r2 = ⟨[challengeReq u], some (false, (docbCall r1).2.2, st)⟩ := by
  rcases h with ⟨m, rfl⟩ | ⟨m, rfl⟩ | ⟨dat, rfl, hdat⟩
  · simp [GW.DoLogin, GW.doChallenge, docbCall, challengeReq]
  · simp [GW.DoLogin, GW.doChallenge, docbCall, challengeReq]
  · simp [GW.DoLogin, GW.doChallenge, docbCall, challengeReq, hdat]

/-!  ## The claims -/

/-- Claim C1: for every username, accessKey and password-mode flag,
DoLogin first performs the getchallenge call (the request trace always
starts with it); if the challenge step fails (transport error, decode
error, or success=false) then DoLogin returns failure immediately and
never sends the login request: the trace is exactly the one getchallenge
request. -/
theorem claim_C1_login_challenge_gate (st : PkgState) (u k : String) (wp : Bool)
    (r1 r2 : WireResp) (h : ChallengeFails r1) :
    ((GW.DoLogin st u k wp r1 r2).reqs = [challengeReq u] ∧
      (∃ e, (GW.DoLogin st u k wp r1 r2).out = some (false, e, st))) ∧
    ∀ r1' r2' : WireResp,
      ((GW.DoLogin st u k wp r1' r2').reqs).head? = some (challengeReq u) := by
  refine ⟨⟨?_, ?_⟩, ?_⟩
  · rw [DoLogin_on_failed_challenge st u k wp r1 r2 h]
  · exact ⟨(docbCall r1).2.2, by rw [DoLogin_on_failed_challenge st u k wp r1 r2 h]⟩
  · intro r1' r2'
    have hreq := doChallenge_reqs st u r1'
    simp only [GW.DoLogin]
    cases hch : (GW.doChallenge st u r1').out with
    | none => simp [hch, hreq]
    | some t =>
      obtain ⟨dc, err, st1⟩ := t
      simp only [hch]
      by_cases hdc : dc = false <;>
        simp only [hdc, if_true, if_false, Bool.false_eq_true, reduceIte] <;>
        (repeat' split) <;> simp [hreq]

/-- Witness for claim C1 at a concrete failing challenge. -/
theorem claim_C1_witness :
    ChallengeFails (.transport "no route") ∧
    (GW.DoLogin sampleState "admin" "key" true (.transport "no route") (.ok [])).reqs
      = [challengeReq "admin"] :=
  ⟨Or.inl ⟨ "no route", rfl⟩,
   (claim_C1_login_challenge_gate sampleState "admin" "key" true (.transport "no route")
     (.ok []) (Or.inl ⟨ "no route", rfl⟩)).1.1⟩

lemma successTrue_of_true (dat : JObj) (h : getF dat "success" = some (.jbool true)) :
    successTrue dat = true := by
  simp [successTrue, h]

lemma doChallenge_chalOk (st : PkgState) (u : String) (stime : ℚ) (etime tok : String) :
    GW.doChallenge st u (chalOkResp stime etime tok) =
      ⟨[challengeReq u], some (true, none,
        { st with cbConnection := { st.cbConnection with
            servertime := stime, expiretime := etime, token := tok } })⟩ := rfl

lemma DoLogin_err_after_chalOk (st : PkgState) (u k : String) (wp : Bool)
    (stime : ℚ) (etime tok : String) (dat : JObj) (code msg : String)
    (h : ErrEnvelope dat code msg) :
    (GW.DoLogin st u k wp (chalOkResp stime etime tok) (.ok dat)).out
      = some (false, some (code ++ ": " ++ msg),
          { st with cbConnection := { st.cbConnection with
              servertime := stime, expiretime := etime, token := tok } }) := by
  have hs : successTrue dat = false := successTrue_of_false dat h.1
  have hr := remoteErr_of_envelope dat code msg h
  cases wp <;> simp [GW.DoLogin, doChallenge_chalOk, docbCall, hs, hr]

/-- Claim C4: a well-formed success=false envelope makes doChallenge
return failure with a nil error (the remote error envelope of a failed
challenge is never surfaced), and any non-nil error doChallenge returns
comes from a transport or JSON-decode failure. -/
theorem claim_C4_challenge_error_asymmetry (st st' : PkgState) (u : String)
    (dat : JObj) (r : WireResp) (b : Bool) (msg : String)
    (hdat : getF dat "success" = some (.jbool false))
    (herr : (GW.doChallenge st u r).out = some (b, some msg, st')) :
    (GW.doChallenge st u (.ok dat)).out = some (false, none, st) ∧
    ((∃ m, r = .transport m) ∨ (∃ m, r = .decodeFail m)) := by
  constructor
  · have hs := successTrue_of_false dat hdat
    simp [GW.doChallenge, docbCall, hs]
  · cases r with
    | transport m => exact Or.inl ⟨m, rfl⟩
    | decodeFail m => exact Or.inr ⟨m, rfl⟩
    | ok dat2 =>
      exfalso
      by_cases hs : successTrue dat2 = true
      · simp only [GW.doChallenge, docbCall, hs] at herr
        (repeat' split at herr) <;> simp_all
      · simp [GW.doChallenge, docbCall, hs] at herr

/-- Witness for claim C4 at concrete inputs. -/
theorem claim_C4_witness :
    (GW.doChallenge sampleState "admin" (.ok invalidSessionDat)).out
      = some (false, none, sampleState) ∧
    ((∃ m, WireResp.transport "boom" = WireResp.transport m) ∨
      (∃ m, WireResp.transport "boom" = WireResp.decodeFail m)) :=
  claim_C4_challenge_error_asymmetry sampleState sampleState "admin" invalidSessionDat
    (.transport "boom") false "boom" rfl rfl

/-- Claim C3: when the HTTP call and the JSON decode succeed but the
envelope is success=false with a structured error object, every public
operation returns the error text code ++ ": " ++ msg (DoLogin after a
successful challenge; DoInvoke provided its parameter loop completes). -/
theorem claim_C3_remote_error_format (st : PkgState) (dat : JObj) (code msg : String)
    (h : ErrEnvelope dat code msg) :
    (∀ u k wp (stime : ℚ) etime tok, ∃ st',
        (GW.DoLogin st u k wp (chalOkResp stime etime tok) (.ok dat)).out
          = some (false, some (code ++ ": " ++ msg), st')) ∧
    ((GW.DoLogout st (.ok dat)).out = some (false, some (code ++ ": " ++ msg), st)) ∧
    (∀ q, (GW.DoQuery st q (.ok dat)).out
        = some (.jobj [], some (code ++ ": " ++ msg), st)) ∧
    (∀ ftl, (GW.DoListTypes st ftl (.ok dat)).out
        = some ([], some (code ++ ": " ++ msg), st)) ∧
    (∀ m, (GW.DoDescribe st m (.ok dat)).out = some ([], some (code ++ ": " ++ msg), st)) ∧
    (∀ rec, (GW.DoRetrieve st rec (.ok dat)).out
        = some ([], some (code ++ ": " ++ msg), st)) ∧
    (∀ m vm, (GW.DoCreate st m vm (.ok dat)).out
        = some ([], some (code ++ ": " ++ msg), st)) ∧
    (∀ m vm, (GW.DoUpdate st m vm (.ok dat)).out
        = some ([], some (code ++ ": " ++ msg), st)) ∧
    (∀ m vm, (GW.DoRevise st m vm (.ok dat)).out
        = some ([], some (code ++ ": " ++ msg), st)) ∧
    (∀ rec, (GW.DoDelete st rec (.ok dat)).out
        = some (false, some (code ++ ": " ++ msg), st)) ∧
    (∀ m ps tc v, invokeLoop [( "operation", PVal.s m),
          ( "sessionName", PVal.s st.cbConnection.sessionid)] ps = some v →
        (GW.DoInvoke st m ps tc (.ok dat)).out
          = some ([], some (code ++ ": " ++ msg), st)) ∧
    (∀ rec m rm qp, (GW.DoGetRelatedRecords st rec m rm qp (.ok dat)).out
        = some ([], some (code ++ ": " ++ msg), st)) ∧
    (∀ rid ids, (GW.DoSetRelated st rid ids (.ok dat)).out
        = some (false, some (code ++ ": " ++ msg), st)) ∧
    (∀ t l cs, (GW.DoLoginPage st t l cs (.ok dat)).out
        = some ("", some (code ++ ": " ++ msg), st)) := by
  have hs : successTrue dat = false := successTrue_of_false dat h.1
  have hr := remoteErr_of_envelope dat code msg h
  refine ⟨?_, ?_, ?_, ?_, ?_, ?_, ?_, ?_, ?_, ?_, ?_, ?_, ?_, ?_⟩
  · exact fun u k wp stime etime tok => ⟨_, DoLogin_err_after_chalOk st u k wp stime etime tok dat code msg h⟩
  · simp [GW.DoLogout, docbCall, hs, hr]
  · intro q; simp [GW.DoQuery, docbCall, hs, hr]
  · intro ftl; simp [GW.DoListTypes, docbCall, hs, hr]
  · intro m; simp [GW.DoDescribe, docbCall, hs, hr]
  · intro rec; simp [GW.DoRetrieve, docbCall, hs, hr]
  · intro m vm; simp [GW.DoCreate, docbCall, hs, hr]
  · intro m vm; simp [GW.DoUpdate, docbCall, hs, hr]
  · intro m vm; simp [GW.DoRevise, docbCall, hs, hr]
  · intro rec; simp [GW.DoDelete, docbCall, hs, hr]
  · intro m ps tc v hv; simp [GW.DoInvoke, hv, docbCall, hs, hr]
  · intro rec m rm qp; simp [GW.DoGetRelatedRecords, docbCall, hs, hr]
  · intro rid ids; simp [GW.DoSetRelated, docbCall, hs, hr]
  · intro t l cs; simp [GW.DoLoginPage, docbCall, hs, hr]

/-- Witness for claim C3 at the spec's INVALID_SESSION envelope. -/
theorem claim_C3_witness :
    (GW.DoQuery sampleState "select id from Contacts" (.ok invalidSessionDat)).out
      = some (.jobj [], some "INVALID_SESSION: bad session", sampleState) :=
  (claim_C3_remote_error_format sampleState invalidSessionDat "INVALID_SESSION"
    "bad session" ⟨rfl, _, rfl, rfl, rfl⟩).2.2.1 "select id from Contacts"

lemma doChallenge_preserves (st : PkgState) (u : String) (r : WireResp)
    (dc : Bool) (e : Option String) (st1 : PkgState)
    (h : (GW.doChallenge st u r).out = some (dc, e, st1)) :
    st1.cbConnection.serviceuser = st.cbConnection.serviceuser ∧
    st1.cbConnection.servicekey = st.cbConnection.servicekey ∧
    st1.cbConnection.sessionid = st.cbConnection.sessionid ∧
    st1.cbConnection.userid = st.cbConnection.userid ∧
    st1.queryRestulColumns = st.queryRestulColumns := by
  cases r <;> simp only [GW.doChallenge, docbCall] at h <;>
    (repeat' split at h) <;>
    simp only [Option.some.injEq, Prod.mk.injEq, reduceCtorEq] at h <;>
    (obtain ⟨-, -, h3⟩ := h; subst h3; exact ⟨rfl, rfl, rfl, rfl, rfl⟩)

/-- Claim C5 (amended): a DoLogin call that returns failure never touches
the login fields serviceUser, serviceKey, sessionId, userId or the column
map; and when the challenge step itself failed, the whole state is
untouched.  (The original claim is refuted by claim_C5_counterexample:
when the challenge succeeds and only the login step fails, the challenge
fields serverTime, expireTime and token have already been updated.) -/
theorem claim_C5_failed_login_frame (st st' : PkgState) (u k : String)
    (wp : Bool) (r1 r2 : WireResp) (e : Option String)
    (h : (GW.DoLogin st u k wp r1 r2).out = some (false, e, st')) :
    st'.cbConnection.serviceuser = st.cbConnection.serviceuser ∧
    st'.cbConnection.servicekey = st.cbConnection.servicekey ∧
    st'.cbConnection.sessionid = st.cbConnection.sessionid ∧
    st'.cbConnection.userid = st.cbConnection.userid ∧
    st'.queryRestulColumns = st.queryRestulColumns ∧
    (ChallengeFails r1 → st' = st) := by
  have hlast : ChallengeFails r1 → st' = st := by
    intro hcf
    rw [DoLogin_on_failed_challenge st u k wp r1 r2 hcf] at h
    simp only [Option.some.injEq, Prod.mk.injEq] at h
    exact h.2.2.symm
  have haux : st'.cbConnection.serviceuser = st.cbConnection.serviceuser ∧
      st'.cbConnection.servicekey = st.cbConnection.servicekey ∧
      st'.cbConnection.sessionid = st.cbConnection.sessionid ∧
      st'.cbConnection.userid = st.cbConnection.userid ∧
      st'.queryRestulColumns = st.queryRestulColumns := by
    cases hch : (GW.doChallenge st u r1).out with
    | none => simp [GW.DoLogin, hch] at h
    | some t =>
      obtain ⟨dc, err, st1⟩ := t
      have hpres := doChallenge_preserves st u r1 dc err st1 hch
      simp only [GW.DoLogin, hch] at h
      by_cases hdc : dc = false
      · simp only [hdc, if_true, eq_self_iff_true, reduceIte,
          Option.some.injEq, Prod.mk.injEq] at h
        obtain ⟨-, -, hst⟩ := h
        subst hst
        exact hpres
      · simp only [hdc, reduceIte] at h
        (repeat' split at h) <;> simp_all
  exact ⟨haux.1, haux.2.1, haux.2.2.1, haux.2.2.2.1, haux.2.2.2.2, hlast⟩

/-- Counterexample to claim C5 as stated: the challenge succeeds (storing
the fresh token), the login step then fails, DoLogin returns failure, yet
the session state differs from the state before the call. -/
theorem claim_C5_counterexample :
    ∃ e st', (GW.DoLogin sampleState "u" "k" true
        (chalOkResp 5 "2018-01-01" "newtok") (.ok loginErrDat)).out
      = some (false, e, st') ∧ st'.cbConnection.token ≠ sampleState.cbConnection.token :=
  ⟨some "INVALID_LOGIN: bad", _, rfl, by decide⟩

/-- Witness for the amended claim C5 at a concrete failed login. -/
theorem claim_C5_witness :
    (GW.DoLogin sampleState "u" "k" true (.transport "down") (.ok [])).out
      = some (false, some "down", sampleState) ∧
    sampleState.cbConnection.sessionid = sampleState.cbConnection.sessionid :=
  ⟨rfl, (claim_C5_failed_login_frame sampleState sampleState "u" "k" true
    (.transport "down") (.ok []) (some "down") rfl).2.2.1⟩

lemma head?_dropWhile_not (p : Char → Bool) (l : List Char) (x : Char)
    (h : (l.dropWhile p).head? = some x) : p x = false := by
  induction l with
  | nil => simp [List.dropWhile] at h
  | cons a t ih =>
    rw [List.dropWhile_cons] at h
    by_cases hp : p a
    · rw [if_pos hp] at h
      exact ih h
    · rw [if_neg hp] at h
      simp only [List.head?_cons, Option.some.injEq] at h
      subst h
      simpa using hp

lemma DoQuery_reqs (st : PkgState) (query : String) (r : WireResp) :
    (GW.DoQuery st query r).reqs = [⟨ "GET", [( "operation", .s "query"),
      ( "sessionName", .s st.cbConnection.sessionid),
      ( "query", .s (trimSemi query ++ ";"))]⟩] := by
  cases r <;> simp only [GW.DoQuery, docbCall] <;> (repeat' split) <;> rfl

lemma exactlyOne_trimSemi (q : String) : ExactlyOneTrailingSemi (trimSemi q ++ ";") := by
  refine ⟨(trimSemi q).data, ?_, ?_⟩
  · rw [String.data_append (trimSemi q) ";"]
  · intro hl
    rw [show (trimSemi q).data
          = ((q.data.dropWhile fun c => c == ' ' || c == ';').reverse.dropWhile
              fun c => c == ' ' || c == ';').reverse from rfl,
        List.getLast?_reverse] at hl
    have hpf := head?_dropWhile_not _ _ _ hl
    simp at hpf

/-- Claim C6: DoQuery always sends the query trimmed of surrounding
spaces/semicolons plus a single trailing semicolon; the normalized query
ends in exactly one trailing semicolon, and the spec's two examples
normalize to the same string. -/
theorem claim_C6_query_trailing_semicolon (st : PkgState) (query : String) (r : WireResp) :
    (GW.DoQuery st query r).reqs = [⟨ "GET", [( "operation", .s "query"),
        ( "sessionName", .s st.cbConnection.sessionid),
        ( "query", .s (trimSemi query ++ ";"))]⟩] ∧
    ExactlyOneTrailingSemi (trimSemi query ++ ";") ∧
    trimSemi "select * from Contacts" ++ ";" = "select * from Contacts;" ∧
    trimSemi "select * from Contacts;  " ++ ";" = "select * from Contacts;" :=
  ⟨DoQuery_reqs st query r, exactlyOne_trimSemi query, by decide, by decide⟩

/-- Claim C7 (code bug): after a successful non-empty query the column
map is refilled in place without being cleared, so entries left by an
earlier wider query survive at the higher indices; the empty-result case
does reset the map.  Here a one-column result leaves index 1 still
mapping to the stale column name. -/
theorem claim_C7_stale_columns_bug :
    (∃ rv e st', (GW.DoQuery prevColsState "select id from Contacts" (.ok oneColDat)).out
        = some (rv, e, st') ∧
      GW.GetResultColumns st' 0 = some "id" ∧
      GW.GetResultColumns st' 1 = some "name") ∧
    (∃ rv e st', (GW.DoQuery prevColsState "select id from Contacts" (.ok emptyResDat)).out
        = some (rv, e, st') ∧ ∀ i, GW.GetResultColumns st' i = none) :=
  ⟨⟨_, _, _, rfl, rfl, rfl⟩, ⟨_, _, _, rfl, fun _ => rfl⟩⟩

lemma find?_none_of_any_false {α : Type} (p : α → Bool) (l : List α)
    (h : l.any p = false) : l.find? p = none := by
  rw [List.find?_eq_none]
  intro x hx hpx
  rw [List.any_eq_false] at h
  exact absurd hpx (h x hx)

lemma getF_append_self (l : JObj) (k : String) (v : JVal)
    (h : l.any (fun p => p.1 == k) = false) :
    getF (l ++ [(k, v)]) k = some v := by
  unfold getF
  rw [List.find?_append, find?_none_of_any_false _ _ h]
  simp [List.find?]

lemma getF_append_other (l : JObj) (k k2 : String) (v : JVal) (h : k ≠ k2) :
    getF (l ++ [(k, v)]) k2 = getF l k2 := by
  unfold getF
  rw [List.find?_append]
  have hbe : (k == k2) = false := beq_eq_false_iff_ne.mpr h
  have hnone : ([(k, v)].find? (fun p => p.1 == k2)) = none := by
    simp [List.find?, hbe]
  rw [hnone, Option.or_none]

/-- Claim C8: DoCreate, DoUpdate and DoRevise send as element the caller
map with assigned_user_id defaulted to the session user id exactly when
that key is absent; a present key leaves the map, the explicit value and
every other entry untouched. -/
theorem claim_C8_assigned_user_default (st : PkgState) (m : String) (vm : JObj)
    (r : WireResp) :
    ((GW.DoCreate st m vm r).reqs = [⟨ "POST", [( "operation", .s "create"),
        ( "sessionName", .s st.cbConnection.sessionid), ( "elementType", .s m),
        ( "element", .j (.jobj (withAssignedUser vm st.cbConnection.userid)))]⟩]) ∧
    ((GW.DoUpdate st m vm r).reqs = [⟨ "POST", [( "operation", .s "update"),
        ( "sessionName", .s st.cbConnection.sessionid), ( "elementType", .s m),
        ( "element", .j (.jobj (withAssignedUser vm st.cbConnection.userid)))]⟩]) ∧
    ((GW.DoRevise st m vm r).reqs = [⟨ "POST", [( "operation", .s "revise"),
        ( "sessionName", .s st.cbConnection.sessionid), ( "elementType", .s m),
        ( "element", .j (.jobj (withAssignedUser vm st.cbConnection.userid)))]⟩]) ∧
    (vm.any (fun p => p.1 == "assigned_user_id") = false →
      withAssignedUser vm st.cbConnection.userid
        = vm ++ [( "assigned_user_id", .jstr st.cbConnection.userid)] ∧
      getF (withAssignedUser vm st.cbConnection.userid) "assigned_user_id"
        = some (.jstr st.cbConnection.userid) ∧
      ∀ k2, k2 ≠ "assigned_user_id" →
        getF (withAssignedUser vm st.cbConnection.userid) k2 = getF vm k2) ∧
    (vm.any (fun p => p.1 == "assigned_user_id") = true →
      withAssignedUser vm st.cbConnection.userid = vm) := by
  refine ⟨?_, ?_, ?_, ?_, ?_⟩
  · cases r <;> simp only [GW.DoCreate, docbCall] <;> (repeat' split) <;> rfl
  · cases r <;> simp only [GW.DoUpdate, docbCall] <;> (repeat' split) <;> rfl
  · cases r <;> simp only [GW.DoRevise, docbCall] <;> (repeat' split) <;> rfl
  · intro habs
    have heq : withAssignedUser vm st.cbConnection.userid
        = vm ++ [( "assigned_user_id", .jstr st.cbConnection.userid)] := by
      simp [withAssignedUser, habs]
    refine ⟨heq, ?_, ?_⟩
    · rw [heq]
      exact getF_append_self vm _ _ habs
    · intro k2 hk2
      rw [heq]
      exact getF_append_other vm _ k2 _ (Ne.symm hk2)
  · intro hpres
    simp [withAssignedUser, hpres]

/-- Witness for claim C8: the key is added exactly when absent. -/
theorem claim_C8_witness :
    withAssignedUser [( "name", JVal.jstr "A")] sampleState.cbConnection.userid
      = [( "name", JVal.jstr "A"), ( "assigned_user_id", JVal.jstr "19x1")] ∧
    withAssignedUser [( "assigned_user_id", JVal.jstr "19x7")] sampleState.cbConnection.userid
      = [( "assigned_user_id", JVal.jstr "19x7")] :=
  ⟨((claim_C8_assigned_user_default sampleState "Contacts" [( "name", .jstr "A")]
      (.transport "t")).2.2.2.1 rfl).1,
   (claim_C8_assigned_user_default sampleState "Contacts"
      [( "assigned_user_id", .jstr "19x7")] (.transport "t")).2.2.2.2 rfl⟩

/-- Claim C9: DoDelete succeeds (true, nil error) exactly when the
envelope is success=true with a result whose status field is the string
"successful"; any other status string yields the local error
"Unexpected DELETE error", not a remote-formatted one. -/
theorem claim_C9_delete_status (st : PkgState) (record : String) (dat rdo : JObj)
    (s : String)
    (hsu : getF dat "success" = some (.jbool true))
    (hres : (getF dat "result").bind asObj = some rdo)
    (hst : (getF rdo "status").bind asStr = some s) :
    ((s = "successful" → (GW.DoDelete st record (.ok dat)).out = some (true, none, st)) ∧
     (s ≠ "successful" →
        (GW.DoDelete st record (.ok dat)).out
          = some (false, some "Unexpected DELETE error", st))) ∧
    (∀ r st₁ e₁, (GW.DoDelete st record r).out = some (true, e₁, st₁) →
      e₁ = none ∧ st₁ = st ∧ ∃ dat₂ rdo₂, r = .ok dat₂ ∧ successTrue dat₂ = true ∧
        (getF dat₂ "result").bind asObj = some rdo₂ ∧
        (getF rdo₂ "status").bind asStr = some "successful") := by
  have hs := successTrue_of_true dat hsu
  constructor
  · constructor
    · intro hok
      subst hok
      simp [GW.DoDelete, docbCall, hs, hres, hst]
    · intro hbad
      simp [GW.DoDelete, docbCall, hs, hres, hst, hbad]
  · intro r st₁ e₁ hr
    cases r with
    | transport m => simp [GW.DoDelete, docbCall] at hr
    | decodeFail m => simp [GW.DoDelete, docbCall] at hr
    | ok dat₂ =>
      by_cases h2 : successTrue dat₂ = true
      · simp only [GW.DoDelete, docbCall, h2, eq_self_iff_true, and_self,
          if_true, reduceIte] at hr
        cases hro : (getF dat₂ "result").bind asObj with
        | none => simp [hro] at hr
        | some rdo₂ =>
          simp only [hro] at hr
          cases hss : (getF rdo₂ "status").bind asStr with
          | none => simp [hss] at hr
          | some s₂ =>
            simp only [hss] at hr
            by_cases hs₂ : s₂ = "successful"
            · simp only [hs₂, if_true, eq_self_iff_true, reduceIte,
                Option.some.injEq, Prod.mk.injEq] at hr
              exact ⟨hr.2.1.symm, hr.2.2.symm,
                dat₂, rdo₂, rfl, h2, hro, hs₂ ▸ hss⟩
            · simp [hs₂] at hr
      · simp only [GW.DoDelete, docbCall, h2] at hr
        cases hre : remoteErr dat₂ <;> simp [hre] at hr

/-- Witness for claim C9 at concrete success and wrong-status envelopes. -/
theorem claim_C9_witness :
    (GW.DoDelete sampleState "3x9" (.ok delOkDat)).out = some (true, none, sampleState) ∧
    (GW.DoDelete sampleState "3x9" (.ok delBadDat)).out
      = some (false, some "Unexpected DELETE error", sampleState) :=
  ⟨(claim_C9_delete_status sampleState "3x9" delOkDat
      [( "status", JVal.jstr "successful")] "successful" rfl rfl rfl).1.1 rfl,
   (claim_C9_delete_status sampleState "3x9" delBadDat
      [( "status", JVal.jstr "pending")] "pending" rfl rfl rfl).1.2 (by decide)⟩

/-!  ## The login access-key payload (supporting lemmas for claim C2)

Plaintext mode sends the token-key concatenation verbatim, hashed mode
its lowercase hex MD5 digest, and whenever the concatenation does not
have the digest length 32 the two payloads differ.  (The unrestricted
distinctness claim would require that MD5-hex has no 32-character fixed
point, which is open.) -/

lemma DoLogin_sends_plaintext_key (st : PkgState) (u k : String) (stime : ℚ)
    (etime tok : String) (r2 : WireResp) :
    (GW.DoLogin st u k true (chalOkResp stime etime tok) r2).reqs
      = [challengeReq u, ⟨ "POST", [( "operation", .s "login"), ( "username", .s u),
          ( "accessKey", .s (tok ++ k))]⟩] := by
  cases r2 <;> simp only [GW.DoLogin, doChallenge_chalOk, docbCall] <;>
    (repeat' split) <;> first | rfl | simp_all

lemma DoLogin_sends_hashed_key (st : PkgState) (u k : String) (stime : ℚ)
    (etime tok : String) (r2 : WireResp) :
    (GW.DoLogin st u k false (chalOkResp stime etime tok) r2).reqs
      = [challengeReq u, ⟨ "POST", [( "operation", .s "login"), ( "username", .s u),
          ( "accessKey", .s (getMD5Hash (tok ++ k)))]⟩] := by
  cases r2 <;> simp only [GW.DoLogin, doChallenge_chalOk, docbCall] <;>
    (repeat' split) <;> first | rfl | simp_all

lemma length_flatten_map_byteHex (l : List Nat) :
    ((l.map byteHex).flatten).length = 2 * l.length := by
  induction l with
  | nil => simp
  | cons a t ih =>
    simp only [List.map_cons, List.flatten_cons, List.length_append, ih, byteHex,
      List.length_cons, List.length_nil]
    omega

lemma md5Digest_length (msg : List Nat) : (md5Digest msg).length = 16 := by
  simp [md5Digest, wordBytesLE]

lemma getMD5Hash_length (s : String) : (getMD5Hash s).length = 32 := by
  show (((md5Digest (utf8Bytes s)).map byteHex).flatten).length = 32
  rw [length_flatten_map_byteHex, md5Digest_length]

lemma plaintext_hashed_distinct_of_length (tok k : String)
    (h : (tok ++ k).length ≠ 32) : tok ++ k ≠ getMD5Hash (tok ++ k) :=
  fun he => h (by rw [he, getMD5Hash_length])

lemma plaintext_hashed_distinct_example :
    ("oldtok" : String) ++ "key" ≠ getMD5Hash ("oldtok" ++ "key") := by decide

/-!  ## Equivalence of the two variants (claim C10) -/

lemma equiv_doChallenge (st : PkgState) (u : String) (r : WireResp) :
    CTX.doChallenge (toCtx st) u r = mapOut (GW.doChallenge st u r) := by
  cases r <;> simp only [CTX.doChallenge, GW.doChallenge, docbCall, toCtx] <;>
    (repeat' split) <;> rfl

lemma equiv_DoLogin (st : PkgState) (u k : String) (wp : Bool) (r1 r2 : WireResp) :
    CTX.DoLogin (toCtx st) u k wp r1 r2 = mapOut (GW.DoLogin st u k wp r1 r2) := by
  simp only [CTX.DoLogin, GW.DoLogin, equiv_doChallenge]
  simp only [mapOut]
  cases hch : (GW.doChallenge st u r1).out with
  | none => simp [hch]
  | some t =>
    obtain ⟨dc, err, st1⟩ := t
    simp only [hch, Option.map_some']
    by_cases hdc : dc = false
    · simp [hdc]
    · simp only [hdc, reduceIte]
      cases r2 <;> simp only [docbCall] <;> (repeat' split) <;> rfl

lemma equiv_DoLogout (st : PkgState) (r : WireResp) :
    CTX.DoLogout (toCtx st) r = mapOut (GW.DoLogout st r) := by
  cases r <;> simp only [CTX.DoLogout, GW.DoLogout, docbCall, toCtx] <;>
    (repeat' split) <;> rfl

lemma equiv_DoQuery (st : PkgState) (q : String) (r : WireResp) :
    CTX.DoQuery (toCtx st) q r = mapOut (GW.DoQuery st q r) := by
  cases r <;> simp only [CTX.DoQuery, GW.DoQuery, docbCall, toCtx] <;>
    (repeat' split) <;> rfl

lemma equiv_DoListTypes (st : PkgState) (ftl : List String) (r : WireResp) :
    CTX.DoListTypes (toCtx st) ftl r = mapOut (GW.DoListTypes st ftl r) := by
  cases r <;> simp only [CTX.DoListTypes, GW.DoListTypes, docbCall, toCtx] <;>
    (repeat' split) <;> rfl

lemma equiv_DoDescribe (st : PkgState) (m : String) (r : WireResp) :
    CTX.DoDescribe (toCtx st) m r = mapOut (GW.DoDescribe st m r) := by
  cases r <;> simp only [CTX.DoDescribe, GW.DoDescribe, docbCall, toCtx] <;>
    (repeat' split) <;> rfl

lemma equiv_DoRetrieve (st : PkgState) (rec : String) (r : WireResp) :
    CTX.DoRetrieve (toCtx st) rec r = mapOut (GW.DoRetrieve st rec r) := by
  cases r <;> simp only [CTX.DoRetrieve, GW.DoRetrieve, docbCall, toCtx] <;>
    (repeat' split) <;> rfl

lemma equiv_DoCreate (st : PkgState) (m : String) (vm : JObj) (r : WireResp) :
    CTX.DoCreate (toCtx st) m vm r = mapOut (GW.DoCreate st m vm r) := by
  cases r <;> simp only [CTX.DoCreate, GW.DoCreate, docbCall, toCtx] <;>
    (repeat' split) <;> rfl

lemma equiv_DoUpdate (st : PkgState) (m : String) (vm : JObj) (r : WireResp) :
    CTX.DoUpdate (toCtx st) m vm r = mapOut (GW.DoUpdate st m vm r) := by
  cases r <;> simp only [CTX.DoUpdate, GW.DoUpdate, docbCall, toCtx] <;>
    (repeat' split) <;> rfl

lemma equiv_DoRevise (st : PkgState) (m : String) (vm : JObj) (r : WireResp) :
    CTX.DoRevise (toCtx st) m vm r = mapOut (GW.DoRevise st m vm r) := by
  cases r <;> simp only [CTX.DoRevise, GW.DoRevise, docbCall, toCtx] <;>
    (repeat' split) <;> rfl

lemma equiv_DoDelete (st : PkgState) (rec : String) (r : WireResp) :
    CTX.DoDelete (toCtx st) rec r = mapOut (GW.DoDelete st rec r) := by
  cases r <;> simp only [CTX.DoDelete, GW.DoDelete, docbCall, toCtx] <;>
    (repeat' split) <;> rfl

lemma equiv_DoInvoke (st : PkgState) (m : String) (ps : List (String × JVal))
    (tc : String) (r : WireResp) :
    CTX.DoInvoke (toCtx st) m ps tc r = mapOut (GW.DoInvoke st m ps tc r) := by
  cases r <;> simp only [CTX.DoInvoke, GW.DoInvoke, docbCall, toCtx] <;>
    (repeat' split) <;> rfl

lemma equiv_DoGetRelatedRecords (st : PkgState) (rec m rm : String) (qp : JObj)
    (r : WireResp) :
    CTX.DoGetRelatedRecords (toCtx st) rec m rm qp r
      = mapOut (GW.DoGetRelatedRecords st rec m rm qp r) := by
  cases r <;> simp only [CTX.DoGetRelatedRecords, GW.DoGetRelatedRecords, docbCall, toCtx] <;>
    (repeat' split) <;> rfl

lemma equiv_DoSetRelated (st : PkgState) (rid : String) (ids : List String)
    (r : WireResp) :
    CTX.DoSetRelated (toCtx st) rid ids r = mapOut (GW.DoSetRelated st rid ids r) := by
  cases r <;> simp only [CTX.DoSetRelated, GW.DoSetRelated, docbCall, toCtx] <;>
    (repeat' split) <;> rfl

lemma equiv_DoLoginPage (st : PkgState) (t l cs : String) (r : WireResp) :
    CTX.DoLoginPage (toCtx st) t l cs r = mapOut (GW.DoLoginPage st t l cs r) := by
  cases r <;> simp only [CTX.DoLoginPage, GW.DoLoginPage, docbCall, toCtx] <;>
    (repeat' split) <;> rfl

/-- Claim C10: the package-global implementation and the context-based
implementation are observationally equivalent: for every operation, every
starting state and every server response, both issue the same requests
and return the same value, error and state, with the cbContext fields
playing the role of the package-level connection and column map
(the correspondence toCtx / mapOut). -/
theorem claim_C10_variant_equivalence :
    (∀ st u r, CTX.doChallenge (toCtx st) u r = mapOut (GW.doChallenge st u r)) ∧
    (∀ st u k wp r1 r2,
      CTX.DoLogin (toCtx st) u k wp r1 r2 = mapOut (GW.DoLogin st u k wp r1 r2)) ∧
    (∀ st r, CTX.DoLogout (toCtx st) r = mapOut (GW.DoLogout st r)) ∧
    (∀ st q r, CTX.DoQuery (toCtx st) q r = mapOut (GW.DoQuery st q r)) ∧
    (∀ st ftl r, CTX.DoListTypes (toCtx st) ftl r = mapOut (GW.DoListTypes st ftl r)) ∧
    (∀ st m r, CTX.DoDescribe (toCtx st) m r = mapOut (GW.DoDescribe st m r)) ∧
    (∀ st rec r, CTX.DoRetrieve (toCtx st) rec r = mapOut (GW.DoRetrieve st rec r)) ∧
    (∀ st m vm r, CTX.DoCreate (toCtx st) m vm r = mapOut (GW.DoCreate st m vm r)) ∧
    (∀ st m vm r, CTX.DoUpdate (toCtx st) m vm r = mapOut (GW.DoUpdate st m vm r)) ∧
    (∀ st m vm r, CTX.DoRevise (toCtx st) m vm r = mapOut (GW.DoRevise st m vm r)) ∧
    (∀ st rec r, CTX.DoDelete (toCtx st) rec r = mapOut (GW.DoDelete st rec r)) ∧
    (∀ st m ps tc r,
      CTX.DoInvoke (toCtx st) m ps tc r = mapOut (GW.DoInvoke st m ps tc r)) ∧
    (∀ st rec m rm qp r, CTX.DoGetRelatedRecords (toCtx st) rec m rm qp r
      = mapOut (GW.DoGetRelatedRecords st rec m rm qp r)) ∧
    (∀ st rid ids r,
      CTX.DoSetRelated (toCtx st) rid ids r = mapOut (GW.DoSetRelated st rid ids r)) ∧
    (∀ st t l cs r,
      CTX.DoLoginPage (toCtx st) t l cs r = mapOut (GW.DoLoginPage st t l cs r)) :=
  ⟨equiv_doChallenge, equiv_DoLogin, equiv_DoLogout, equiv_DoQuery, equiv_DoListTypes,
   equiv_DoDescribe, equiv_DoRetrieve, equiv_DoCreate, equiv_DoUpdate, equiv_DoRevise,
   equiv_DoDelete, equiv_DoInvoke, equiv_DoGetRelatedRecords, equiv_DoSetRelated,
   equiv_DoLoginPage⟩

end CoreBOSLib
